import Mathlib

/-!
# Verification of the bilibili-viewcount-booster core

Shallow embedding of `src/booster.py` (classes `Config`, `Statistics`,
`BilibiliBooster`): the proxy partitioning and validation of
`filter_proxies` / `filter_proxy_batch`, the dispatch loop of
`boost_view_count`, and the statistics helpers.  Network effects are
modelled by explicit oracles (`Option`-valued outcomes indexed by the
number of calls made so far); machine integers are `Nat`/`Int`; Python
exceptions become `Except`/`Option` values.
-/

namespace Booster

/-! ## Data model -/

/-- The fields of the video-info payload that `boost_view_count` reads:
`aid`, `cid`, `owner.mid`, `stat.view` and the `desc_v2` type list
(`get_video_info` returns `data['data']`, booster.py lines 221-239). -/
structure VideoInfo where
  aid : Nat
  cid : Nat
  mid : Nat
  view : Nat
  desc_v2 : List Nat
deriving Repr, DecidableEq

/-- The form payload of one increment ("click") request,
booster.py lines 289-298. Constant fields (`part`, `jsonp`) are omitted. -/
structure ClickData where
  aid : Nat
  cid : Nat
  bvid : String
  mid : Nat
  type : Nat
  sub_type : Nat
deriving Repr, DecidableEq

/-- Build the click payload from the currently-held snapshot, as at
booster.py lines 289-298: `type` is `desc_v2[0]` when `desc_v2` is
non-empty (Python truthiness of the list) and `1` otherwise; `sub_type`
is always `0`. -/
def make_click_data (bvid : String) (info : VideoInfo) : ClickData :=
  { aid := info.aid, cid := info.cid, bvid := bvid, mid := info.mid,
    type := match info.desc_v2 with
      | [] => 1
      | t :: _ => t,
    sub_type := 0 }

/-- The remote video-info response as seen by `get_video_info`
(booster.py lines 221-239): a transport failure
(`requests.RequestException`), or a JSON payload with an application
`code` and possibly-malformed data. -/
inductive ApiResp where
  | transport_error
  | payload (code : Int) (data : Option VideoInfo)
deriving Repr, DecidableEq

/-- `get_video_info` (booster.py lines 221-239): transport failures,
a non-zero application `code`, and malformed payloads all raise
`RuntimeError` (here `Except.error`); otherwise the data is returned. -/
def get_video_info (r : ApiResp) : Except String VideoInfo :=
  match r with
  | .transport_error => .error "Failed to get video info"
  | .payload code data =>
    if code ≠ 0 then .error "Bilibili API error"
    else
      match data with
      | none => .error "Failed to parse video info"
      | some info => .ok info

/-- `Statistics.calculate_success_rate` (booster.py lines 57-59):
`(successful_hits / total_proxies * 100) if total_proxies > 0 else 0.0`,
with real division modelled in `ℚ`. -/
def calculate_success_rate (successful_hits : Nat) (total_proxies : Nat) : ℚ :=
  if total_proxies > 0 then (successful_hits : ℚ) / (total_proxies : ℚ) * 100 else 0

/-! ## Proxy partitioning (`filter_proxies`, booster.py lines 194-207) -/

/-- Python list slicing `xs[a:b]` for `0 ≤ a ≤ b` (the only shape used in
`filter_proxies`). -/
def pySlice (xs : List α) (a b : Nat) : List α :=
  (xs.drop a).take (b - a)

/-- The slice of candidates handed to thread `i` (booster.py lines
195-204): with `q = len(total_proxies) // thread_num`,
`start_idx = i*q` and `end_idx = start_idx + q` for every thread but the
last, which runs to `len(total_proxies)`. -/
def slice_for_thread (xs : List α) (w i : Nat) : List α :=
  let q := xs.length / w
  let start_idx := i * q
  let end_idx := if i < w - 1 then start_idx + q else xs.length
  pySlice xs start_idx end_idx

/-- All `thread_num` slices, in thread order (the loop
`for i in range(self.config.thread_num)` at booster.py line 198). -/
def thread_slices (xs : List α) (w : Nat) : List (List α) :=
  (List.range w).map (slice_for_thread xs w)

/-! ## Proxy validation (`filter_proxies` / `filter_proxy_batch`,
booster.py lines 163-219) -/

/-- The survivors of one worker's batch: the candidates of its slice
whose probe POST returned status 200 (booster.py lines 179-190); a
`requests.RequestException` or another status just omits the candidate.
`probe p = true` means the probe through `p` returned 200. -/
def batch_survivors (probe : String → Bool) (slice : List String) : List String :=
  slice.filter probe

/-- The collected `active_proxies` list: every worker appends its
surviving candidates to the shared list (booster.py lines 186-187);
worker completion order is unspecified, the thread-order concatenation
is one admissible order. -/
def filter_proxies_result (probe : String → Bool) (candidates : List String)
    (w : Nat) : List String :=
  ((thread_slices candidates w).map (batch_survivors probe)).flatten

/-- `filter_proxies` (booster.py lines 163-219): raises
`RuntimeError("No active proxies found")` when the collected list is
empty (lines 216-217), otherwise returns it. -/
def filter_proxies (probe : String → Bool) (candidates : List String)
    (w : Nat) : Except String (List String) :=
  let active := filter_proxies_result probe candidates w
  if active.length = 0 then .error "No active proxies found" else .ok active

/-! ## Validation-phase shared state (`filter_proxy_batch`,
booster.py lines 167-190)

Each worker thread alternately executes two lock-protected critical
sections per candidate: `count += 1` (plus the progress print) at the
top of the per-candidate loop (lines 174-177), and — only after the
unlocked probe POST succeeds — `active_proxies.append(proxy)`
(lines 186-187).  Executions are interleavings of the workers' atomic
critical sections. -/

/-- One lock-protected critical section of `filter_proxy_batch`. -/
inductive VAction where
  | tick
  | append (proxy : String)
deriving Repr, DecidableEq

/-- The sequence of critical sections one worker executes for its slice
(booster.py lines 171-190): for each candidate, a `tick`
(`count += 1` under the lock), then an `append` under the lock exactly
when the probe returned 200. -/
def worker_actions (probe : String → Bool) : List String → List VAction
  | [] => []
  | p :: ps =>
    VAction.tick :: (if probe p then [VAction.append p] else []) ++ worker_actions probe ps

/-- The shared mutable state of validation: the progress counter
`count` and the shared list `active_proxies`. -/
structure VState where
  count : Nat
  active : List String
deriving Repr, DecidableEq

/-- Effect of one critical section on the shared state. -/
def apply_action (s : VState) : VAction → VState
  | .tick => { s with count := s.count + 1 }
  | .append p => { s with active := s.active ++ [p] }

/-- Run a whole schedule of critical sections. -/
def run_actions (s : VState) (t : List VAction) : VState :=
  t.foldl apply_action s

/-- `Interleave xs ys zs`: `zs` is an interleaving of the two workers'
action sequences `xs` and `ys`, each worker's own order preserved (the
lock serialises critical sections but fixes no order across workers). -/
inductive Interleave : List VAction → List VAction → List VAction → Prop
  | nil : Interleave [] [] []
  | left {xs ys zs a} : Interleave xs ys zs → Interleave (a :: xs) ys (a :: zs)
  | right {xs ys zs a} : Interleave xs ys zs → Interleave xs (a :: ys) (a :: zs)

/-! ## Round cooldown (booster.py lines 333-343) -/

/-- `remain_seconds = int(self.config.round_time - elapsed_time)`
(booster.py line 334), with whole seconds modelled in `ℤ`. -/
def remain_seconds (round_time elapsed : Int) : Int :=
  round_time - elapsed

/-- The countdown values displayed between rounds, one per one-second
tick: `for second in reversed(range(remain_seconds))` guarded by
`remain_seconds > 0` (booster.py lines 336-343); each iteration
re-prints the remaining time and sleeps one second. -/
def cooldown_disp (round_time elapsed : Int) : List Nat :=
  if remain_seconds round_time elapsed > 0 then
    (List.range (remain_seconds round_time elapsed).toNat).reverse
  else []

/-! ## Dispatch loop (`boost_view_count`, booster.py lines 241-354) -/

/-- The mutable state of the dispatch loop: `current_views`, the
currently-held snapshot `info`, `self.stats.successful_hits`, plus
instrumentation counters — `attempts`/`requests` record the click
requests issued so far (indexing the click oracle) and `polls` the
snapshot re-fetches attempted so far (indexing the poll oracle). -/
structure RoundState where
  views : Nat
  info : VideoInfo
  hits : Nat
  attempts : Nat
  polls : Nat
  requests : List ClickData
deriving Repr, DecidableEq

/-- One click request (booster.py lines 288-327): the payload is built
from the currently-held `info` and sent through the proxy; on HTTP
status 200 `successful_hits` is incremented (lines 308-309), on any
other status or on `requests.RequestException` (lines 315-327) nothing
but the progress line changes.  `clickO k = none` models an exception
on the `k`-th click, `some st` an HTTP response with status `st`. -/
def do_click (bvid : String) (clickO : Nat → Option Nat) (s : RoundState) : RoundState :=
  let payload := make_click_data bvid s.info
  match clickO s.attempts with
  | some st =>
    if st = 200 then
      { s with hits := s.hits + 1, attempts := s.attempts + 1,
               requests := s.requests ++ [payload] }
    else
      { s with attempts := s.attempts + 1, requests := s.requests ++ [payload] }
  | none =>
    { s with attempts := s.attempts + 1, requests := s.requests ++ [payload] }

/-- One round of the dispatch loop (booster.py lines 262-327):
`for i, proxy in enumerate(self.active_proxies)`, where for every index
with `i % update_pbar_count == 0` the snapshot is re-fetched first
(lines 265-286) — on success the snapshot and `current_views` are
replaced and the round breaks immediately when
`current_views >= target` (lines 277-284); on failure (lines 285-286)
the stale snapshot is kept — and then, unless the round broke, one
click request is sent for the proxy.  Returns the final state and the
`reach_target` flag. -/
def run_round (N target : Nat) (bvid : String) (pollO : Nat → Option VideoInfo)
    (clickO : Nat → Option Nat) : List (Nat × String) → RoundState → RoundState × Bool
  | [], s => (s, false)
  | (i, _proxy) :: rest, s =>
    if i % N = 0 then
      match pollO s.polls with
      | some newInfo =>
        let s' := { s with views := newInfo.view, info := newInfo, polls := s.polls + 1 }
        if s'.views ≥ target then (s', true)
        else run_round N target bvid pollO clickO rest (do_click bvid clickO s')
      | none =>
        run_round N target bvid pollO clickO rest
          (do_click bvid clickO { s with polls := s.polls + 1 })
    else
      run_round N target bvid pollO clickO rest (do_click bvid clickO s)

/-- The outer `while current_views < target` loop (booster.py lines
257-343), with explicit fuel standing in for the unbounded iteration:
run a round; exit when `reach_target` was set (line 329-330) or when
the re-checked `current_views` has reached the target; otherwise (after
the cooldown, which touches no loop state) start the next round.
`none` means the fuel ran out before the loop terminated. -/
def boost_loop (N target : Nat) (bvid : String) (pollO : Nat → Option VideoInfo)
    (clickO : Nat → Option Nat) (proxies : List (Nat × String)) :
    Nat → RoundState → Option RoundState
  | 0, _ => none
  | fuel + 1, s =>
    if s.views < target then
      match run_round N target bvid pollO clickO proxies s with
      | (s', true) => some s'
      | (s', false) => boost_loop N target bvid pollO clickO proxies fuel s'
    else some s

/-- `Statistics` fields relevant to a run (booster.py lines 48-55):
`successful_hits` and `initial_view_count` start at `0`, the timestamps
start unset (`None`). -/
structure BoostStats where
  successful_hits : Nat
  initial_view_count : Nat
  start_time : Option Nat
  end_time : Option Nat
deriving Repr, DecidableEq

/-- Outcome of `boost_view_count`: `aborted` when the initial snapshot
read failed (booster.py lines 251-253: log the error and `return`),
`finished` when the loop exited and the final statistics were printed,
`diverged` when the fuel bound was hit first. -/
inductive BoostOutcome where
  | aborted (stats : BoostStats) (requests : List ClickData)
  | finished (stats : BoostStats) (final_views : Nat) (final : RoundState)
  | diverged
deriving Repr, DecidableEq

/-- `boost_view_count` (booster.py lines 241-354).  `initR` is the
response to the initial `get_video_info` call (lines 246-253): on any
failure the error is logged and the method returns with the statistics
untouched.  On success `initial_view_count` and `start_time` are set,
the dispatch loop runs, `end_time` is set, and the final best-effort
snapshot read (`finalO`, lines 347-352) supplies the reported final
view count, falling back to `current_views` on failure. -/
def boost_view_count (fuel N target : Nat) (bvid : String) (initR : ApiResp)
    (pollO : Nat → Option VideoInfo) (clickO : Nat → Option Nat)
    (finalO : Option Nat) (now_start now_end : Nat)
    (proxies : List String) : BoostOutcome :=
  match get_video_info initR with
  | .error _ => .aborted ⟨0, 0, none, none⟩ []
  | .ok info =>
    let s0 : RoundState :=
      { views := info.view, info := info, hits := 0, attempts := 0,
        polls := 0, requests := [] }
    match boost_loop N target bvid pollO clickO proxies.enum fuel s0 with
    | none => .diverged
    | some s =>
      .finished ⟨s.hits, info.view, some now_start, some now_end⟩
        (finalO.getD s.views) s

/-! ## Helper lemmas -/

/-- Flattening `n` consecutive `q`-sized slices of `xs` yields the first
`n * q` elements of `xs`. -/
lemma flatten_q_slices (q : Nat) :
    ∀ (n : Nat) (xs : List α),
      ((List.range n).map (fun i => (xs.drop (i * q)).take q)).flatten = xs.take (n * q) := by
  intro n
  induction n with
  | zero => intro xs; simp
  | succ m ih =>
    intro xs
    rw [List.range_succ, List.map_append, List.flatten_append, ih]
    simp [Nat.succ_mul, List.take_add]

/-- Every non-last thread's slice is exactly `q` elements starting at
`i * q`, where `q = xs.length / w`. -/
lemma slice_for_thread_eq_take (xs : List α) (w i : Nat) (h : i < w - 1) :
    slice_for_thread xs w i = (xs.drop (i * (xs.length / w))).take (xs.length / w) := by
  simp [slice_for_thread, pySlice, h, Nat.add_sub_cancel_left]

/-- The last thread's slice runs to the end of the list. -/
lemma slice_for_thread_last (xs : List α) (w : Nat) :
    slice_for_thread xs w (w - 1) = xs.drop ((w - 1) * (xs.length / w)) := by
  have hlt : ¬ (w - 1 < w - 1) := lt_irrefl _
  simp only [slice_for_thread, pySlice, if_neg hlt]
  exact List.take_of_length_le (by simp [List.length_drop])

/-- The thread slices concatenate back to the original list. -/
lemma thread_slices_flatten (xs : List α) (w : Nat) (hw : 1 ≤ w) :
    (thread_slices xs w).flatten = xs := by
  obtain ⟨m, rfl⟩ : ∃ m, w = m + 1 := ⟨w - 1, (Nat.succ_pred_eq_of_pos hw).symm⟩
  rw [thread_slices, List.range_succ, List.map_append, List.flatten_append]
  have h1 : (List.range m).map (slice_for_thread xs (m + 1))
      = (List.range m).map
          (fun i => (xs.drop (i * (xs.length / (m + 1)))).take (xs.length / (m + 1))) := by
    refine List.map_congr_left fun i hi => ?_
    exact slice_for_thread_eq_take xs (m + 1) i (by simpa using List.mem_range.mp hi)
  have h2 : slice_for_thread xs (m + 1) m = xs.drop (m * (xs.length / (m + 1))) := by
    simpa using slice_for_thread_last xs (m + 1)
  rw [h1, flatten_q_slices, List.map_singleton, h2]
  simp [List.take_append_drop]

/-- Every element of a thread slice is an element of the candidate list. -/
lemma mem_of_mem_slice_for_thread {xs : List α} {w i : Nat} {x : α}
    (h : x ∈ slice_for_thread xs w i) : x ∈ xs := by
  unfold slice_for_thread pySlice at h
  exact List.mem_of_mem_drop (List.mem_of_mem_take h)

/-! ## Claim theorems -/

/-- Claim C2: for every candidate list of size `k` and worker count `w`
with `1 ≤ w ≤ k`, the partition of `filter_proxies` into `w` contiguous
slices assigns every candidate to exactly one worker: the slices
concatenate back to the whole list (so no candidate is duplicated or
dropped), the per-worker sizes sum to `k`, and each of the first `w - 1`
slices has size `k / w`. -/
theorem partition_assigns_each_candidate_once (xs : List String) (w : Nat)
    (hw : 1 ≤ w) (hwk : w ≤ xs.length) :
    (thread_slices xs w).flatten = xs
    ∧ ((thread_slices xs w).map List.length).sum = xs.length
    ∧ (∀ i, i < w - 1 → (slice_for_thread xs w i).length = xs.length / w) := by
  have hflat := thread_slices_flatten xs w hw
  refine ⟨hflat, ?_, ?_⟩
  · rw [← List.length_flatten, hflat]
  · intro i hi
    rw [slice_for_thread_eq_take xs w i hi]
    have hbound : (i + 1) * (xs.length / w) ≤ xs.length := by
      calc (i + 1) * (xs.length / w) ≤ w * (xs.length / w) :=
            Nat.mul_le_mul_right _ (by omega)
        _ = xs.length / w * w := Nat.mul_comm _ _
        _ ≤ xs.length := Nat.div_mul_le_self _ _
    simp only [List.length_take, List.length_drop]
    have : i * (xs.length / w) + xs.length / w ≤ xs.length := by
      have := hbound; rw [Nat.succ_mul] at this; omega
    omega

/-- Witness for C2 at `k = 5`, `w = 2`: slices `[a, b]` and
`[c, d, e]`. -/
theorem partition_assigns_each_candidate_once_witness :
    (thread_slices ["a", "b", "c", "d", "e"] 2).flatten = ["a", "b", "c", "d", "e"]
    ∧ ((thread_slices ["a", "b", "c", "d", "e"] 2).map List.length).sum = 5 := by
  have h := partition_assigns_each_candidate_once ["a", "b", "c", "d", "e"] 2
    (by decide) (by decide)
  exact ⟨h.1, by rw [h.2.1]; rfl⟩

/-- Claim C7: when every probe fails, validation collects the empty
list and `filter_proxies` raises `RuntimeError("No active proxies
found")` (the `InsufficientProxies` failure) instead of returning the
empty set. -/
theorem all_probes_fail_insufficient (probe : String → Bool)
    (candidates : List String) (w : Nat)
    (h : ∀ p ∈ candidates, probe p = false) :
    filter_proxies_result probe candidates w = []
    ∧ filter_proxies probe candidates w = .error "No active proxies found" := by
  have hres : filter_proxies_result probe candidates w = [] := by
    rw [filter_proxies_result, List.flatten_eq_nil_iff]
    intro l hl
    rw [List.mem_map] at hl
    obtain ⟨slice, hslice, rfl⟩ := hl
    rw [thread_slices, List.mem_map] at hslice
    obtain ⟨i, _, rfl⟩ := hslice
    rw [batch_survivors, List.filter_eq_nil_iff]
    intro p hp
    simp [h p (mem_of_mem_slice_for_thread hp)]
  exact ⟨hres, by rw [filter_proxies, hres]; rfl⟩

/-- Witness for C7: two dead candidates, one worker. -/
theorem all_probes_fail_insufficient_witness :
    filter_proxies (fun _ => false) ["1.1.1.1:80", "2.2.2.2:80"] 1
      = .error "No active proxies found" :=
  (all_probes_fail_insufficient (fun _ => false) ["1.1.1.1:80", "2.2.2.2:80"] 1
    (fun _ _ => rfl)).2

/-- Claim C9: `calculate_success_rate` equals `100 * hits / total`
exactly when `total > 0` and equals `0` when `total = 0`, so it never
divides by zero. -/
theorem success_rate_correct (h n : Nat) :
    (0 < n → calculate_success_rate h n = 100 * (h : ℚ) / (n : ℚ))
    ∧ (n = 0 → calculate_success_rate h n = 0) := by
  constructor
  · intro hn
    rw [calculate_success_rate, if_pos hn]
    have hne : (n : ℚ) ≠ 0 := Nat.cast_ne_zero.mpr hn.ne'
    field_simp
    ring
  · intro hn
    simp [calculate_success_rate, hn]

/-- Witness for C9 at `hits = 50`, `total = 100` (rate `50`) and
`total = 0` (rate `0`). -/
theorem success_rate_correct_witness :
    calculate_success_rate 50 100 = 50 ∧ calculate_success_rate 50 0 = 0 := by
  refine ⟨?_, (success_rate_correct 50 0).2 rfl⟩
  rw [(success_rate_correct 50 100).1 (by norm_num)]
  norm_num

/-- Claim C5: after a round taking `e` seconds with round duration `D`,
the cooldown performs `(D - e).toNat` one-second display ticks when
`D - e` is positive and none when `e ≥ D`. -/
theorem cooldown_tick_count (D e : Int) :
    (0 < D - e → (cooldown_disp D e).length = (D - e).toNat)
    ∧ (D ≤ e → cooldown_disp D e = []) := by
  constructor
  · intro hpos
    rw [cooldown_disp, remain_seconds, if_pos hpos]
    simp
  · intro hle
    rw [cooldown_disp, remain_seconds, if_neg (by omega)]

/-- Witness for C5: `D = 305`; a 40-second round waits 265 ticks, a
400-second round waits none. -/
theorem cooldown_tick_count_witness :
    (cooldown_disp 305 40).length = 265 ∧ cooldown_disp 305 400 = [] := by
  constructor
  · rw [(cooldown_tick_count 305 40).1 (by norm_num)]; rfl
  · exact (cooldown_tick_count 305 400).2 (by norm_num)

/-! ## Dispatch-loop claims -/

/-- A sample snapshot for concrete evaluations. -/
def infoA : VideoInfo :=
  { aid := 11, cid := 22, mid := 33, view := 950, desc_v2 := [] }

/-- A refreshed sample snapshot whose counter is past the target. -/
def infoB : VideoInfo :=
  { aid := 11, cid := 22, mid := 33, view := 1005, desc_v2 := [2] }

/-- A sample mid-round dispatch state. -/
def stateA : RoundState :=
  { views := 950, info := infoA, hits := 3, attempts := 7, polls := 2,
    requests := [] }

/-- Claim C4: one click submission increments `successful_hits` by
exactly one if and only if the request returns the HTTP-success status
(200, `requests.codes.ok`); a transport failure (`none`) or any other
status leaves the counter unchanged, the change is never more than one,
and the round continues with the next proxy instead of propagating an
exception. -/
theorem click_hit_iff (bvid : String) (clickO : Nat → Option Nat) (s : RoundState) :
    ((do_click bvid clickO s).hits = s.hits + 1 ↔ clickO s.attempts = some 200)
    ∧ ((do_click bvid clickO s).hits = s.hits + 1 ∨ (do_click bvid clickO s).hits = s.hits)
    ∧ (∀ st, clickO s.attempts = some st → st ≠ 200 → (do_click bvid clickO s).hits = s.hits)
    ∧ (clickO s.attempts = none → (do_click bvid clickO s).hits = s.hits)
    ∧ (∀ N target pollO i p rest, i % N ≠ 0 →
        run_round N target bvid pollO clickO ((i, p) :: rest) s
          = run_round N target bvid pollO clickO rest (do_click bvid clickO s)) := by
  refine ⟨?_, ?_, ?_, ?_, ?_⟩
  case _ =>
    rcases hres : clickO s.attempts with _ | st
    · simp [do_click, hres]
    · by_cases h200 : st = 200
      · subst h200; simp [do_click, hres]
      · simp [do_click, hres, h200]
  case _ =>
    rcases hres : clickO s.attempts with _ | st
    · simp [do_click, hres]
    · by_cases h200 : st = 200 <;> simp [do_click, hres, h200]
  case _ =>
    intro st hres h200
    simp [do_click, hres, h200]
  case _ =>
    intro hres
    simp [do_click, hres]
  case _ =>
    intro N target pollO i p rest hmod
    simp [run_round, hmod]

/-- Witness for C4: a 200 response bumps hits from 3 to 4; a 502
response and a transport failure leave them at 3; index 7 of a round
with poll interval 10 proceeds to the next proxy. -/
theorem click_hit_iff_witness :
    (do_click "BV1x" (fun _ => some 200) stateA).hits = stateA.hits + 1
    ∧ (do_click "BV1x" (fun _ => some 502) stateA).hits = stateA.hits
    ∧ (do_click "BV1x" (fun _ => none) stateA).hits = stateA.hits
    ∧ run_round 10 1000 "BV1x" (fun _ => some infoB) (fun _ => some 200)
        [(7, "p7")] stateA
        = run_round 10 1000 "BV1x" (fun _ => some infoB) (fun _ => some 200)
            [] (do_click "BV1x" (fun _ => some 200) stateA) :=
  ⟨(click_hit_iff "BV1x" (fun _ => some 200) stateA).1.mpr rfl,
   (click_hit_iff "BV1x" (fun _ => some 502) stateA).2.2.1 502 rfl (by decide),
   (click_hit_iff "BV1x" (fun _ => none) stateA).2.2.2.1 rfl,
   (click_hit_iff "BV1x" (fun _ => some 200) stateA).2.2.2.2
     10 1000 (fun _ => some infoB) 7 "p7" [] (by decide)⟩

/-- Claim C6: a failed mid-round snapshot re-fetch changes nothing but
the poll counter — the held snapshot, the observed counter and the hit
count are all retained — and the round continues with a click request
built from the previously held snapshot's identifiers. -/
theorem poll_failure_keeps_snapshot (N target : Nat) (bvid : String)
    (pollO : Nat → Option VideoInfo) (clickO : Nat → Option Nat)
    (i : Nat) (p : String) (rest : List (Nat × String)) (s : RoundState)
    (hidx : i % N = 0) (hfail : pollO s.polls = none) :
    run_round N target bvid pollO clickO ((i, p) :: rest) s
      = run_round N target bvid pollO clickO rest
          (do_click bvid clickO { s with polls := s.polls + 1 })
    ∧ ({ s with polls := s.polls + 1 } : RoundState).views = s.views
    ∧ ({ s with polls := s.polls + 1 } : RoundState).info = s.info
    ∧ ({ s with polls := s.polls + 1 } : RoundState).hits = s.hits
    ∧ (do_click bvid clickO { s with polls := s.polls + 1 }).requests
        = s.requests ++ [make_click_data bvid s.info] := by
  refine ⟨by simp [run_round, hidx, hfail], rfl, rfl, rfl, ?_⟩
  rcases hres : clickO s.attempts with _ | st
  · simp [do_click, hres]
  · by_cases h200 : st = 200 <;> simp [do_click, hres, h200]

/-- Witness for C6 at index 10 of a round with poll interval 10 and a
failing poll oracle. -/
theorem poll_failure_keeps_snapshot_witness :
    run_round 10 1000 "BV1x" (fun _ => none) (fun _ => some 200)
      [(10, "p10")] stateA
      = run_round 10 1000 "BV1x" (fun _ => none) (fun _ => some 200)
          [] (do_click "BV1x" (fun _ => some 200)
                { stateA with polls := stateA.polls + 1 })
    ∧ (do_click "BV1x" (fun _ => some 200)
          { stateA with polls := stateA.polls + 1 }).requests
        = stateA.requests ++ [make_click_data "BV1x" stateA.info] :=
  ⟨(poll_failure_keeps_snapshot 10 1000 "BV1x" (fun _ => none) (fun _ => some 200)
      10 "p10" [] stateA (by decide) rfl).1,
   (poll_failure_keeps_snapshot 10 1000 "BV1x" (fun _ => none) (fun _ => some 200)
      10 "p10" [] stateA (by decide) rfl).2.2.2.2⟩

/-- Claim C1: a successful mid-round re-fetch that observes a counter
at or past the target ends the round at once — the returned state shows
no further click attempts or requests — and the outer loop then exits
with that state, for any remaining fuel. -/
theorem midround_convergence_terminates (N target : Nat) (bvid : String)
    (pollO : Nat → Option VideoInfo) (clickO : Nat → Option Nat)
    (i : Nat) (p : String) (rest : List (Nat × String)) (s : RoundState)
    (v : VideoInfo) (hidx : i % N = 0) (hpoll : pollO s.polls = some v)
    (hv : target ≤ v.view) :
    run_round N target bvid pollO clickO ((i, p) :: rest) s
      = ({ s with views := v.view, info := v, polls := s.polls + 1 }, true)
    ∧ (run_round N target bvid pollO clickO ((i, p) :: rest) s).1.attempts = s.attempts
    ∧ (run_round N target bvid pollO clickO ((i, p) :: rest) s).1.requests = s.requests
    ∧ (∀ (l : List (Nat × String)) (s₀ s₁ : RoundState) (fuel : Nat),
        s₀.views < target →
        run_round N target bvid pollO clickO l s₀ = (s₁, true) →
        boost_loop N target bvid pollO clickO l (fuel + 1) s₀ = some s₁) := by
  have hrun : run_round N target bvid pollO clickO ((i, p) :: rest) s
      = ({ s with views := v.view, info := v, polls := s.polls + 1 }, true) := by
    simp [run_round, hidx, hpoll, hv]
  refine ⟨hrun, by rw [hrun], by rw [hrun], ?_⟩
  intro l s₀ s₁ fuel hlt hround
  simp [boost_loop, hlt, hround]

/-- Witness for C1: target 1000, snapshot at 950, poll returns 1005 at
the round's first proxy; the round ends with the attempt counter still
at 7, and the outer loop exits immediately. -/
theorem midround_convergence_terminates_witness :
    run_round 10 1000 "BV1x" (fun _ => some infoB) (fun _ => some 200)
      [(0, "p0"), (1, "p1")] stateA
      = ({ stateA with views := 1005, info := infoB, polls := stateA.polls + 1 }, true)
    ∧ (run_round 10 1000 "BV1x" (fun _ => some infoB) (fun _ => some 200)
        [(0, "p0"), (1, "p1")] stateA).1.attempts = 7
    ∧ boost_loop 10 1000 "BV1x" (fun _ => some infoB) (fun _ => some 200)
        [(0, "p0"), (1, "p1")] 1 stateA
        = some { stateA with views := 1005, info := infoB, polls := stateA.polls + 1 } := by
  have h := midround_convergence_terminates 10 1000 "BV1x" (fun _ => some infoB)
    (fun _ => some 200) 0 "p0" [(1, "p1")] stateA infoB rfl rfl (by decide)
  exact ⟨h.1, h.2.1, h.2.2.2 [(0, "p0"), (1, "p1")] stateA _ 0 (by decide) h.1⟩

/-- Claim C10: index 0 satisfies the every-Nth poll condition for every
`N > 0`, so each round opens with a snapshot re-fetch before any click;
if that first poll observes a counter at or past the target, the round
over the enumerated proxy list ends with zero click attempts issued. -/
theorem round_starts_with_poll (N target : Nat) (bvid : String)
    (pollO : Nat → Option VideoInfo) (clickO : Nat → Option Nat)
    (p : String) (ps : List String) (s : RoundState) (v : VideoInfo)
    (hN : 0 < N) (hpoll : pollO s.polls = some v) (hv : target ≤ v.view) :
    0 % N = 0
    ∧ run_round N target bvid pollO clickO (p :: ps).enum s
        = ({ s with views := v.view, info := v, polls := s.polls + 1 }, true)
    ∧ (run_round N target bvid pollO clickO (p :: ps).enum s).1.attempts = s.attempts
    ∧ (run_round N target bvid pollO clickO (p :: ps).enum s).1.requests = s.requests := by
  have henum : (p :: ps).enum = (0, p) :: List.enumFrom 1 ps := rfl
  have hrun : run_round N target bvid pollO clickO (p :: ps).enum s
      = ({ s with views := v.view, info := v, polls := s.polls + 1 }, true) := by
    rw [henum]
    simp [run_round, Nat.zero_mod, hpoll, hv]
  exact ⟨Nat.zero_mod N, hrun, by rw [hrun], by rw [hrun]⟩

/-- Witness for C10 with poll interval 10 and two proxies: the opening
poll sees 1005 ≥ 1000 and the round issues no clicks. -/
theorem round_starts_with_poll_witness :
    run_round 10 1000 "BV1x" (fun _ => some infoB) (fun _ => some 200)
      ["p0", "p1"].enum stateA
      = ({ stateA with views := 1005, info := infoB, polls := stateA.polls + 1 }, true)
    ∧ (run_round 10 1000 "BV1x" (fun _ => some infoB) (fun _ => some 200)
        ["p0", "p1"].enum stateA).1.requests = [] := by
  have h := round_starts_with_poll 10 1000 "BV1x" (fun _ => some infoB)
    (fun _ => some 200) "p0" ["p1"] stateA infoB (by decide) rfl (by decide)
  exact ⟨h.2.1, h.2.2.2⟩

/-- Claim C3: when the initial baseline read fails — transport failure,
malformed payload, or non-zero application code — `boost_view_count`
logs and returns at once: the outcome is `aborted`, `successful_hits`
is 0, both timestamps are unset, and no click request was ever
issued. -/
theorem baseline_failure_aborts (fuel N target : Nat) (bvid : String)
    (initR : ApiResp) (pollO : Nat → Option VideoInfo)
    (clickO : Nat → Option Nat) (finalO : Option Nat)
    (now_start now_end : Nat) (proxies : List String) (msg : String)
    (hfail : get_video_info initR = .error msg) :
    boost_view_count fuel N target bvid initR pollO clickO finalO
      now_start now_end proxies
      = .aborted ⟨0, 0, none, none⟩ [] := by
  simp [boost_view_count, hfail]

/-- Witness for C3 on all three failure shapes: transport failure,
application code `-1`, and a well-coded but malformed payload. -/
theorem baseline_failure_aborts_witness :
    boost_view_count 5 10 1000 "BV1x" ApiResp.transport_error
      (fun _ => some infoB) (fun _ => some 200) none 0 0 ["p0"]
      = .aborted ⟨0, 0, none, none⟩ []
    ∧ boost_view_count 5 10 1000 "BV1x" (ApiResp.payload (-1) (some infoA))
        (fun _ => some infoB) (fun _ => some 200) none 0 0 ["p0"]
        = .aborted ⟨0, 0, none, none⟩ []
    ∧ boost_view_count 5 10 1000 "BV1x" (ApiResp.payload 0 none)
        (fun _ => some infoB) (fun _ => some 200) none 0 0 ["p0"]
        = .aborted ⟨0, 0, none, none⟩ [] :=
  ⟨baseline_failure_aborts 5 10 1000 "BV1x" ApiResp.transport_error
      (fun _ => some infoB) (fun _ => some 200) none 0 0 ["p0"]
      "Failed to get video info" rfl,
   baseline_failure_aborts 5 10 1000 "BV1x" (ApiResp.payload (-1) (some infoA))
      (fun _ => some infoB) (fun _ => some 200) none 0 0 ["p0"]
      "Bilibili API error" rfl,
   baseline_failure_aborts 5 10 1000 "BV1x" (ApiResp.payload 0 none)
      (fun _ => some infoB) (fun _ => some 200) none 0 0 ["p0"]
      "Failed to parse video info" rfl⟩

/-! ## Validation-phase interleavings (C8) -/

/-- Number of progress-counter critical sections in a schedule. -/
def ticks (t : List VAction) : Nat :=
  t.countP fun a => match a with
    | .tick => true
    | .append _ => false

/-- Number of append critical sections in a schedule. -/
def appends (t : List VAction) : Nat :=
  t.countP fun a => match a with
    | .tick => false
    | .append _ => true

/-- The progress counter after a schedule counts its ticks. -/
lemma run_actions_count (t : List VAction) :
    ∀ s : VState, (run_actions s t).count = s.count + ticks t := by
  induction t with
  | nil => intro s; simp [run_actions, ticks]
  | cons a t ih =>
    intro s
    rcases a with _ | p
    · have : run_actions s (VAction.tick :: t)
          = run_actions { s with count := s.count + 1 } t := rfl
      rw [this, ih]
      simp [ticks, List.countP_cons]
      omega
    · have : run_actions s (VAction.append p :: t)
          = run_actions { s with active := s.active ++ [p] } t := rfl
      rw [this, ih]
      simp [ticks, List.countP_cons]

/-- The shared list after a schedule grew by its appends. -/
lemma run_actions_active (t : List VAction) :
    ∀ s : VState, (run_actions s t).active.length = s.active.length + appends t := by
  induction t with
  | nil => intro s; simp [run_actions, appends]
  | cons a t ih =>
    intro s
    rcases a with _ | p
    · have : run_actions s (VAction.tick :: t)
          = run_actions { s with count := s.count + 1 } t := rfl
      rw [this, ih]
      simp [appends, List.countP_cons]
    · have : run_actions s (VAction.append p :: t)
          = run_actions { s with active := s.active ++ [p] } t := rfl
      rw [this, ih]
      simp [appends, List.countP_cons]
      omega

/-- Interleaving two schedules adds their action counts. -/
lemma interleave_countP (q : VAction → Bool) {xs ys zs : List VAction}
    (h : Interleave xs ys zs) :
    zs.countP q = xs.countP q + ys.countP q := by
  induction h with
  | nil => simp
  | left _ ih => simp [List.countP_cons, ih]; omega
  | right _ ih => simp [List.countP_cons, ih]; omega

/-- Within one worker's schedule, appends never outnumber ticks: each
candidate contributes one tick and at most one append. -/
lemma worker_appends_le_ticks (probe : String → Bool) (ps : List String) :
    appends (worker_actions probe ps) ≤ ticks (worker_actions probe ps) := by
  induction ps with
  | nil => simp [worker_actions, appends, ticks]
  | cons p ps ih =>
    by_cases hp : probe p <;>
      simp [worker_actions, hp, appends, ticks, List.countP_cons,
        List.countP_append, List.countP_nil] at ih ⊢ <;>
      omega

/-- A probe through which every candidate fails. -/
def probe_dead : String → Bool := fun _ => false

/-- Counterexample to C8 as stated: with two workers holding one dead
candidate each, the serial schedule tick-tick is a legal interleaving
of the two workers' lock-protected critical sections, yet it leaves the
progress counter at 2 with zero appended results — the progress counter
overtakes the appended count, because `count += 1` and the append are
separate critical sections and the counter also counts failed
probes. -/
theorem validation_atomicity_counterexample :
    Interleave (worker_actions probe_dead ["1.1.1.1:80"])
      (worker_actions probe_dead ["2.2.2.2:80"])
      [VAction.tick, VAction.tick]
    ∧ (run_actions ⟨0, []⟩ [VAction.tick, VAction.tick]).active.length
        < (run_actions ⟨0, []⟩ [VAction.tick, VAction.tick]).count := by
  constructor
  · have h1 : worker_actions probe_dead ["1.1.1.1:80"] = [VAction.tick] := rfl
    have h2 : worker_actions probe_dead ["2.2.2.2:80"] = [VAction.tick] := rfl
    rw [h1, h2]
    exact Interleave.left (Interleave.right Interleave.nil)
  · show (0 : Nat) < 2
    decide

/-- Claim C8 amended: both shared variables are mutated only inside
critical sections of the one shared lock, but the progress increment
and the result append are two separate critical sections (the unlocked
probe runs between them) and the counter counts every processed
candidate; consequently, over every interleaving of two workers'
critical sections, the appended-result count never exceeds the progress
counter — the counter may overtake the appends, never the reverse. -/
theorem validation_progress_bound (probe : String → Bool)
    (ps₁ ps₂ : List String) (t : List VAction)
    (h : Interleave (worker_actions probe ps₁) (worker_actions probe ps₂) t) :
    (run_actions ⟨0, []⟩ t).active.length ≤ (run_actions ⟨0, []⟩ t).count := by
  rw [run_actions_count, run_actions_active]
  simp only [appends, ticks] at *
  rw [interleave_countP _ h, interleave_countP _ h]
  have b1 := worker_appends_le_ticks probe ps₁
  have b2 := worker_appends_le_ticks probe ps₂
  simp only [appends, ticks] at b1 b2
  simp
  omega

/-- Witness for the amended C8 on the serial schedule of two one-dead-
candidate workers. -/
theorem validation_progress_bound_witness :
    (run_actions ⟨0, []⟩ [VAction.tick, VAction.tick]).active.length
      ≤ (run_actions ⟨0, []⟩ [VAction.tick, VAction.tick]).count :=
  validation_progress_bound probe_dead ["3.3.3.3:80"] ["4.4.4.4:80"]
    [VAction.tick, VAction.tick]
    (Interleave.left (Interleave.right Interleave.nil))

end Booster
